import Mathlib

/-!
Verification development for the AquaShield AI predictive-risk platform.

The repository ships a React front end, a Node/Express API gateway
(aegis, cascade, marine, user routes) and a Python microservice layer
holding the predictive engines.  The gateway and front end are present
in the sources and are embedded here directly; the Python engines
(fragility scoring, plume propagation, vessel anomaly detection, oil
spill estimation) are not in the visible sources, so they are modelled
from the specification, each such definition carrying a doc comment
starting with "Modelled from the spec:".

JavaScript numeric/string values are embedded as Int / String; the
gateway defaulting idiom `x || d` is embedded by jsOrInt / jsOrStr,
which treat 0 resp. the empty string as falsy, exactly as JavaScript
does.
-/

/-- JavaScript `x || d` for an optional numeric field: `undefined`,
`null` and `0` are falsy, every other number is kept. -/
def jsOrInt (x : Option Int) (d : Int) : Int :=
  match x with
  | none => d
  | some v => if v = 0 then d else v

/-- JavaScript `x || d` for an optional string field: `undefined`,
`null` and the empty string are falsy. -/
def jsOrStr (x : Option String) (d : String) : String :=
  match x with
  | none => d
  | some v => if v = "" then d else v

/-- JavaScript truthiness of an optional string (empty string falsy). -/
def jsTruthyStr (x : Option String) : Bool :=
  match x with
  | none => false
  | some v => v ≠ ""

/-- Whether an Except value is a success. -/
def exceptIsOk : Except ε α → Bool
  | .ok _ => true
  | .error _ => false

/- ## Cascade: contamination plume propagation -/

/-- Error taxonomy of the core, from the error-handling design:
a ValidationError is raised before any computation starts. -/
inductive CoreError where
  | validation (message : String)
  | computation (message : String)
  deriving Repr, DecidableEq

/-- One hourly plume time step: hour index, centroid displacement along
the flow direction (advection distance = flow speed × hour), squared
plume radius, planar affected area and population exposure. -/
structure PlumeTimeStep where
  hour : Nat
  centroidOffset : Int
  radiusSq : Int
  area : Int
  populationExposure : Int
  deriving Repr, DecidableEq

/-- Result of one propagation simulation run. -/
structure SimulationResult where
  time_steps : List PlumeTimeStep
  maxArea : Int
  deriving Repr, DecidableEq

/-- Modelled from the spec: the source-type-dependent diffusion
coefficient (missing Python cascade service).  The exact values are an
open configuration question; the spec fixes only the qualitative
ordering, oil spills spreading faster at the surface than industrial
discharge. -/
def diffusion_coeff : String → Int
  | "Oil Spill" => 3
  | "Sewage Overflow" => 2
  | _ => 1

/-- Modelled from the spec: the configurable population-density
constant for the study region (missing Python cascade service). -/
def population_density : Int := 40

/-- Modelled from the spec: one plume time step of the missing Python
cascade service.  The centroid displaces along the flow direction by
flow speed × hour; the radius grows by a diffusion law with
radius squared proportional to the hour, scaled by the source-type
coefficient; the area is proportional to the squared radius, and the
population exposure is area × the density constant. -/
def plume_step (source_type : String) (flow_speed : Int) (h : Nat) :
    PlumeTimeStep :=
  let rsq : Int := (diffusion_coeff source_type) ^ 2 * (h : Int)
  { hour := h
    centroidOffset := flow_speed * (h : Int)
    radiusSq := rsq
    area := 3 * rsq
    populationExposure := 3 * rsq * population_density }

/-- Modelled from the spec: the simulate_propagation operation of the
missing Python cascade service.  It validates the source position and
the duration (whole hours, at least 1 and at most 24) before any
computation, then eagerly computes one time step per hour from 0 to the
duration inclusive. -/
def simulate_propagation (source_lat source_lon : Option Int)
    (source_type : String) (_flow_direction : Int) (flow_speed : Int)
    (simulation_hours : Int) : Except CoreError SimulationResult :=
  if source_lat = none ∨ source_lon = none then
    .error (.validation "contamination source position is required")
  else if simulation_hours < 1 ∨ 24 < simulation_hours then
    .error (.validation "simulation_hours must be between 1 and 24")
  else
    let steps := (List.range (simulation_hours.toNat + 1)).map
      (plume_step source_type flow_speed)
    .ok { time_steps := steps
          maxArea := steps.foldl (fun m s => max m s.area) 0 }

/-- Request body of POST /api/cascade/simulate as the gateway reads it:
every field may be absent. -/
structure CascadeRequest where
  source_lat : Option Int
  source_lon : Option Int
  source_type : Option String
  flow_direction : Option Int
  flow_speed : Option Int
  simulation_hours : Option Int

/-- The parameter set the cascade gateway forwards to the Python
service. -/
structure ForwardedSimulation where
  source_lat : Option Int
  source_lon : Option Int
  source_type : String
  flow_direction : Int
  flow_speed : Int
  simulation_hours : Int
  deriving Repr, DecidableEq

/-- The cascade gateway route (backend/routes/cascade.js): it forwards
the request body, filling source_type, flow_direction, flow_speed and
simulation_hours with JavaScript falsy defaults. -/
def cascadeForward (r : CascadeRequest) : ForwardedSimulation :=
  { source_lat := r.source_lat
    source_lon := r.source_lon
    source_type := jsOrStr r.source_type "Oil Spill"
    flow_direction := jsOrInt r.flow_direction 180
    flow_speed := jsOrInt r.flow_speed 2
    simulation_hours := jsOrInt r.simulation_hours 12 }

/-- POST /api/cascade/simulate end to end: gateway defaulting followed
by the propagation service. -/
def cascadeSimulateRoute (r : CascadeRequest) :
    Except CoreError SimulationResult :=
  let f := cascadeForward r
  simulate_propagation f.source_lat f.source_lon f.source_type
    f.flow_direction f.flow_speed f.simulation_hours

/- ## Cascade claims -/

/-- Concrete cascade request: hours twelve, everything explicit. -/
def reqHours12 : CascadeRequest :=
  { source_lat := some 13, source_lon := some 80
    source_type := some "Oil Spill", flow_direction := some 180
    flow_speed := some 2, simulation_hours := some 12 }

/-- Concrete cascade request with simulation_hours zero. -/
def reqHours0 : CascadeRequest :=
  { reqHours12 with simulation_hours := some 0 }

/-- Concrete cascade request with simulation_hours thirty. -/
def reqHours30 : CascadeRequest :=
  { reqHours12 with simulation_hours := some 30 }

/-- C1: the claim fails on the gateway code at simulation_hours = 0.
The gateway forwards simulation_hours with the JavaScript falsy default
12, so a request carrying 0 is silently turned into a 12-hour request
and accepted: it behaves exactly like the hours-12 request instead of
being rejected.  Only the over-maximum value 30 reaches the service and
is rejected as a ValidationError. -/
theorem C1_hours_zero_silently_defaulted :
    (cascadeForward reqHours0).simulation_hours = 12
    ∧ cascadeSimulateRoute reqHours0 = cascadeSimulateRoute reqHours12
    ∧ exceptIsOk (cascadeSimulateRoute reqHours0) = true
    ∧ cascadeSimulateRoute reqHours30 =
        .error (.validation "simulation_hours must be between 1 and 24") := by
  exact ⟨by decide, rfl, rfl, rfl⟩

/-- C2: the claim fails on the gateway code at flow_direction = 0.
The gateway applies the JavaScript falsy default 180 to flow_direction,
so the valid direction 0 (north, inside the documented 0 to 360 range
offered by the front-end slider) is silently replaced by 180, while any
non-zero valid direction is forwarded as given; a missing flow_speed
does fall back to its documented default 2. -/
theorem C2_flow_direction_zero_replaced :
    (cascadeForward { reqHours12 with flow_direction := some 0 }).flow_direction
        = 180
    ∧ (cascadeForward { reqHours12 with flow_direction := some 90 }).flow_direction
        = 90
    ∧ (cascadeForward { reqHours12 with flow_speed := none }).flow_speed = 2 := by
  exact ⟨by decide, by decide, by decide⟩

/-- The simulation result of the 12-hour Oil Spill run. -/
def resHours12 : SimulationResult :=
  let steps := (List.range 13).map (plume_step "Oil Spill" 2)
  { time_steps := steps
    maxArea := steps.foldl (fun m s => max m s.area) 0 }

/-- C7: simulate_propagation with source_type Oil Spill, flow_direction
180, flow_speed 2.0 and simulation_hours 12 returns exactly 13 time
steps carrying hours 0 through 12 inclusive, and in every simulation
run the time-step areas are non-decreasing in the hour index. -/
theorem C7_thirteen_steps_and_area_monotone :
    (cascadeSimulateRoute reqHours12 = .ok resHours12
      ∧ resHours12.time_steps.length = 13
      ∧ resHours12.time_steps.map PlumeTimeStep.hour = List.range 13)
    ∧ ∀ lat lon stype dir speed hours res,
        simulate_propagation lat lon stype dir speed hours = .ok res →
        ∀ (i j : Nat) (a b : PlumeTimeStep), i ≤ j →
          res.time_steps[i]? = some a → res.time_steps[j]? = some b →
          a.area ≤ b.area := by
  constructor
  · exact ⟨rfl, by decide, by decide⟩
  · intro lat lon stype dir speed hours res hres i j a b hij ha hb
    unfold simulate_propagation at hres
    split at hres
    · cases hres
    · split at hres
      · cases hres
      · simp only [Except.ok.injEq] at hres
        subst hres
        simp only [List.getElem?_map] at ha hb
        obtain ⟨x, hx, hxa⟩ := Option.map_eq_some'.mp ha
        obtain ⟨y, hy, hyb⟩ := Option.map_eq_some'.mp hb
        have hxi : x = i := by
          rcases Nat.lt_or_ge i (hours.toNat + 1) with h1 | h1
          · rw [List.getElem?_range h1] at hx
            exact (Option.some.injEq _ _ ▸ hx).symm
          · rw [List.getElem?_eq_none] at hx
            · cases hx
            · simpa using h1
        have hyj : y = j := by
          rcases Nat.lt_or_ge j (hours.toNat + 1) with h1 | h1
          · rw [List.getElem?_range h1] at hy
            exact (Option.some.injEq _ _ ▸ hy).symm
          · rw [List.getElem?_eq_none] at hy
            · cases hy
            · simpa using h1
        have hxa' : a = plume_step stype speed i := by rw [← hxa, hxi]
        have hyb' : b = plume_step stype speed j := by rw [← hyb, hyj]
        rw [hxa', hyb']
        simp only [plume_step]
        have hc : (0 : Int) ≤ (diffusion_coeff stype) ^ 2 := sq_nonneg _
        have hij' : (i : Int) ≤ (j : Int) := Int.ofNat_le.mpr hij
        nlinarith

/-- Witness for C7: the area monotonicity instantiated on the concrete
12-hour Oil Spill run at hours 0 and 12. -/
theorem C7_witness_concrete_run :
    (plume_step "Oil Spill" 2 0).area ≤ (plume_step "Oil Spill" 2 12).area :=
  C7_thirteen_steps_and_area_monotone.2 (some 13) (some 80) "Oil Spill" 180 2 12
    resHours12 rfl 0 12 (plume_step "Oil Spill" 2 0) (plume_step "Oil Spill" 2 12)
    (by decide) (by decide) (by decide)

/- ## Marine: vessel anomaly detection and oil spill estimation -/

/-- Kinds of vessel anomalies. -/
inductive AnomalyKind where
  | speed_drop
  | course_deviation
  | unexpected_stop
  deriving Repr, DecidableEq

/-- One anomaly attached to a vessel evaluation. -/
structure AnomalyRecord where
  kind : AnomalyKind
  magnitude : Int
  description : String
  deriving Repr, DecidableEq

/-- Vessel telemetry: identity, position, speed over ground, course
over ground, type, and a short rolling history of prior observations. -/
structure Vessel where
  imo : Nat
  lat : Int
  lon : Int
  speed : Int
  course : Int
  vtype : String
  speedHistory : List Int
  courseHistory : List Int
  deriving Repr, DecidableEq

/-- Vessel classification. -/
inductive VesselStatusKind where
  | normal
  | suspicious
  | distress
  deriving Repr, DecidableEq

/-- Modelled from the spec: anomaly rule thresholds of the missing
Python marine service, exposed as named configuration constants.  A
speed drop keeps less than 6/10 of the recent average speed; a course
deviation exceeds 45 degrees from the recent average; an unexpected
stop is near-zero speed (at most 1 knot) over a window of at least 3
observations whose average is at least 5 knots. -/
def speed_keep_num : Int := 6

/-- Denominator of the speed-drop keep fraction. -/
def speed_keep_den : Int := 10

/-- Course deviation angular threshold in degrees. -/
def course_dev_threshold : Int := 45

/-- Near-zero speed bound for an unexpected stop. -/
def stop_speed_max : Int := 1

/-- Minimal history window for an unexpected stop. -/
def stop_window : Nat := 3

/-- Minimal average history speed counting as underway. -/
def underway_min_avg : Int := 5

/-- Modelled from the spec: speed-drop rule, current speed more than a
fixed fraction below the recent average (denominators cleared). -/
def hasSpeedDrop (v : Vessel) : Bool :=
  decide (v.speedHistory ≠ []) &&
    decide (speed_keep_den * v.speed * (v.speedHistory.length : Int) <
      speed_keep_num * v.speedHistory.sum)

/-- Modelled from the spec: course-deviation rule, current course more
than a fixed angular threshold from the recent average. -/
def hasCourseDeviation (v : Vessel) : Bool :=
  decide (v.courseHistory ≠ []) &&
    decide (course_dev_threshold * (v.courseHistory.length : Int) <
      |v.course * (v.courseHistory.length : Int) - v.courseHistory.sum|)

/-- Modelled from the spec: unexpected-stop rule, speed near zero for a
window of observations while historically underway. -/
def hasUnexpectedStop (v : Vessel) : Bool :=
  decide (v.speed ≤ stop_speed_max) &&
    decide (stop_window ≤ v.speedHistory.length) &&
    decide (underway_min_avg * (v.speedHistory.length : Int) ≤ v.speedHistory.sum)

/-- Modelled from the spec: the anomaly records of one vessel, the
three rules applied independently. -/
def vesselAnomalies (v : Vessel) : List AnomalyRecord :=
  (if hasSpeedDrop v then
      [{ kind := .speed_drop, magnitude := v.speed,
         description := "speed dropped below recent average" }] else [])
  ++ (if hasCourseDeviation v then
      [{ kind := .course_deviation, magnitude := v.course,
         description := "course deviates from recent average" }] else [])
  ++ (if hasUnexpectedStop v then
      [{ kind := .unexpected_stop, magnitude := v.speed,
         description := "stopped while historically underway" }] else [])

/-- Modelled from the spec: the combination policy.  Zero anomalies is
normal, exactly one anomaly is suspicious, two or more anomalies or any
unexpected stop is distress. -/
def combineStatus (anomalies : List AnomalyRecord) : VesselStatusKind :=
  if anomalies.isEmpty then .normal
  else if 2 ≤ anomalies.length then .distress
  else if anomalies.any (fun a => decide (a.kind = AnomalyKind.unexpected_stop))
    then .distress
  else .suspicious

/-- One vessel status in the detector response, as the gateway reads
it: a status tag, an imo tag and the vessel itself. -/
structure VesselEvaluation where
  vessel : Option Vessel
  imo : Nat
  status : VesselStatusKind
  anomalies : List AnomalyRecord
  deriving Repr, DecidableEq

/-- Modelled from the spec: the per-vessel evaluation of the missing
Python marine service; the response always carries the vessel and its
imo. -/
def evaluateVessel (v : Vessel) : VesselEvaluation :=
  { vessel := some v
    imo := v.imo
    status := combineStatus (vesselAnomalies v)
    anomalies := vesselAnomalies v }

/-- Modelled from the spec: the fixed seed of the simulated AIS
fleet. -/
def fleet_seed : Nat := 42

/-- Modelled from the spec: one simulated vessel, a pure function of
the seed and the index. -/
def genVessel (seed i : Nat) : Vessel :=
  { imo := 9100000 + i
    lat := 100 + (((seed + 13 * i) % 50 : Nat) : Int)
    lon := 700 + (((seed + 7 * i) % 50 : Nat) : Int)
    speed := if i = 3 then 0 else 8 + (((seed + i) % 6 : Nat) : Int)
    course := if i = 5 then 120 else 45
    vtype := if i % 3 = 0 then "Tanker" else "Cargo"
    speedHistory := [10, 11, 12]
    courseHistory := [40, 45, 50] }

/-- Modelled from the spec: the deterministic simulated AIS fleet of 8
vessels, re-derived from the fixed seed on every call, never mutated. -/
def simulated_fleet : List Vessel := (List.range 8).map (genVessel fleet_seed)

/-- Summary counts of one detection run. -/
structure DetectionSummary where
  total : Nat
  normal : Nat
  suspicious : Nat
  distress : Nat
  deriving Repr, DecidableEq

/-- Response of the vessel anomaly detector. -/
structure DetectionResponse where
  vessel_statuses : List VesselEvaluation
  summary : DetectionSummary
  deriving Repr, DecidableEq

/-- Modelled from the spec: detect_vessel_anomalies of the missing
Python marine service.  A missing vessel batch means the simulated
fleet is used; each vessel is evaluated independently and the summary
counts the statuses. -/
def detect_vessel_anomalies (vessels : Option (List Vessel)) :
    DetectionResponse :=
  let batch := match vessels with
    | none => simulated_fleet
    | some l => l
  let sts := batch.map evaluateVessel
  { vessel_statuses := sts
    summary :=
      { total := sts.length
        normal := sts.countP (fun s => decide (s.status = VesselStatusKind.normal))
        suspicious :=
          sts.countP (fun s => decide (s.status = VesselStatusKind.suspicious))
        distress :=
          sts.countP (fun s => decide (s.status = VesselStatusKind.distress)) } }

/-- An oil spill estimate for one distressed vessel. -/
structure OilSpillEstimate where
  probability_pct : Int
  area : Int
  center_lat : Int
  center_lon : Int
  deriving Repr, DecidableEq

/-- Modelled from the spec: estimate_oil_spill of the missing Python
marine service: probability (as a percentage) higher for tankers and
for unexpected stops, area scaled by the probability, anchored at the
last known position. -/
def estimate_oil_spill (v : Vessel) : OilSpillEstimate :=
  let p := min 100
    (50 + (if v.vtype = "Tanker" then 25 else 0)
        + (if hasUnexpectedStop v then 20 else 0))
  { probability_pct := p
    area := 10 * p
    center_lat := v.lat
    center_lon := v.lon }

/-- The marine gateway forwards the request batch as vessels || null:
an absent batch becomes null, any present array (even empty) is truthy
and kept. -/
def marineForwardVessels (vessels : Option (List Vessel)) :
    Option (List Vessel) :=
  match vessels with
  | none => none
  | some l => some l

/-- One oil-spill entry of the marine response, the spill estimate
spread together with the vessel_imo tag. -/
structure TaggedSpill where
  estimate : OilSpillEstimate
  vessel_imo : Nat
  deriving Repr, DecidableEq

/-- The per-status spill loop of the marine gateway route
(backend/routes/marine.js): for each status that is distress and
carries a vessel, the spill service is called; a success is pushed with
the vessel_imo tag, a failure is only logged and nothing is pushed. -/
def marineSpillLoop (spill : Vessel → Except String OilSpillEstimate) :
    List VesselEvaluation → List TaggedSpill
  | [] => []
  | vs :: rest =>
    let tail := marineSpillLoop spill rest
    if vs.status = VesselStatusKind.distress then
      match vs.vessel with
      | some v =>
        match spill v with
        | .ok s => { estimate := s, vessel_imo := vs.imo } :: tail
        | .error _ => tail
      | none => tail
    else tail

/-- The vessels for which the gateway loop invokes the spill service:
exactly the statuses passing the distress-and-vessel guard, in order. -/
def spillInvocations : List VesselEvaluation → List Vessel
  | [] => []
  | vs :: rest =>
    if vs.status = VesselStatusKind.distress then
      match vs.vessel with
      | some v => v :: spillInvocations rest
      | none => spillInvocations rest
    else spillInvocations rest

/-- The marine analysis response: the detector response spread together
with the collected oil_spills. -/
structure MarineResponse where
  vessel_statuses : List VesselEvaluation
  summary : DetectionSummary
  oil_spills : List TaggedSpill
  deriving Repr, DecidableEq

/-- POST /api/marine/analyze end to end: the gateway forwards the batch
to the detector, then runs the spill loop over the returned statuses,
and returns the detector response together with the oil spills.  The
spill transport, which can fail per call, is a parameter. -/
def marineAnalyzeRoute (spill : Vessel → Except String OilSpillEstimate)
    (vessels : Option (List Vessel)) : MarineResponse :=
  let resp := detect_vessel_anomalies (marineForwardVessels vessels)
  { vessel_statuses := resp.vessel_statuses
    summary := resp.summary
    oil_spills := marineSpillLoop spill resp.vessel_statuses }

/-- The nominal spill transport: the modelled estimator, always
succeeding. -/
def oil_spill_service : Vessel → Except String OilSpillEstimate :=
  fun v => .ok (estimate_oil_spill v)

/-- Every status produced by the detector carries its vessel. -/
theorem detect_statuses_carry_vessel (vessels : Option (List Vessel)) :
    ∀ vs ∈ (detect_vessel_anomalies vessels).vessel_statuses,
      ∃ v, vs.vessel = some v ∧ vs.imo = v.imo := by
  intro vs hvs
  simp only [detect_vessel_anomalies, List.mem_map] at hvs
  obtain ⟨v, _, rfl⟩ := hvs
  exact ⟨v, rfl, rfl⟩

/-- The guarded invocation list restricted to statuses that all carry a
vessel is exactly the distress sublist. -/
theorem spillInvocations_of_carrying (sts : List VesselEvaluation)
    (h : ∀ vs ∈ sts, ∃ v, vs.vessel = some v) :
    (spillInvocations sts).length =
      (sts.filter
        (fun vs => decide (vs.status = VesselStatusKind.distress))).length := by
  induction sts with
  | nil => rfl
  | cons vs rest ih =>
    have hrest : ∀ x ∈ rest, ∃ v, x.vessel = some v := by
      intro x hx; exact h x (List.mem_cons_of_mem _ hx)
    obtain ⟨v, hv⟩ := h vs (List.mem_cons_self _ _)
    by_cases hd : vs.status = VesselStatusKind.distress
    · simp [spillInvocations, hd, hv, List.filter_cons, ih hrest]
    · simp [spillInvocations, hd, List.filter_cons, ih hrest]

/-- Every entry of the spill loop output comes from a distress status
with matching imo whose spill call succeeded. -/
theorem marineSpillLoop_sound (spill : Vessel → Except String OilSpillEstimate)
    (sts : List VesselEvaluation) :
    ∀ e ∈ marineSpillLoop spill sts,
      ∃ vs ∈ sts, vs.status = VesselStatusKind.distress ∧
        ∃ v, vs.vessel = some v ∧ spill v = .ok e.estimate ∧
          e.vessel_imo = vs.imo := by
  induction sts with
  | nil => intro e he; cases he
  | cons vs rest ih =>
    intro e he
    simp only [marineSpillLoop] at he
    split at he
    · rename_i hd
      split at he
      · rename_i v hv
        split at he
        · rename_i s hs
          rcases List.mem_cons.mp he with rfl | hmem
          · exact ⟨vs, List.mem_cons_self _ _, hd, v, hv, by simpa using hs, rfl⟩
          · obtain ⟨x, hx, hprop⟩ := ih e hmem
            exact ⟨x, List.mem_cons_of_mem _ hx, hprop⟩
        · obtain ⟨x, hx, hprop⟩ := ih e he
          exact ⟨x, List.mem_cons_of_mem _ hx, hprop⟩
      · obtain ⟨x, hx, hprop⟩ := ih e he
        exact ⟨x, List.mem_cons_of_mem _ hx, hprop⟩
    · obtain ⟨x, hx, hprop⟩ := ih e he
      exact ⟨x, List.mem_cons_of_mem _ hx, hprop⟩

/-- The spill loop keeps exactly the invoked vessels whose spill call
succeeded. -/
theorem marineSpillLoop_length (spill : Vessel → Except String OilSpillEstimate)
    (sts : List VesselEvaluation) :
    (marineSpillLoop spill sts).length =
      ((spillInvocations sts).filter (fun v => exceptIsOk (spill v))).length := by
  induction sts with
  | nil => rfl
  | cons vs rest ih =>
    simp only [marineSpillLoop, spillInvocations]
    by_cases hd : vs.status = VesselStatusKind.distress
    · rw [if_pos hd, if_pos hd]
      cases hv : vs.vessel with
      | none => exact ih
      | some v =>
        cases hs : spill v with
        | ok s => simp [List.filter_cons, exceptIsOk, hs, ih]
        | error msg => simp [List.filter_cons, exceptIsOk, hs, ih]
    · rw [if_neg hd, if_neg hd]; exact ih

/-- The guarded invocation list is exactly the vessels of the distress
statuses, in order. -/
theorem spillInvocations_eq_filterMap (sts : List VesselEvaluation) :
    spillInvocations sts =
      (sts.filter (fun vs => decide (vs.status = VesselStatusKind.distress))).filterMap
        (fun vs => vs.vessel) := by
  induction sts with
  | nil => rfl
  | cons vs rest ih =>
    by_cases hd : vs.status = VesselStatusKind.distress
    · cases hv : vs.vessel with
      | none => simp [spillInvocations, hd, hv, List.filter_cons, ih]
      | some v => simp [spillInvocations, hd, hv, List.filter_cons, ih]
    · simp [spillInvocations, hd, List.filter_cons, ih]

/-- A concrete distressed vessel: stopped dead while its recent history
shows it underway, giving a speed drop plus an unexpected stop. -/
def distressVessel : Vessel :=
  { imo := 9999999, lat := 10, lon := 20, speed := 0, course := 45
    vtype := "Tanker", speedHistory := [10, 11, 12]
    courseHistory := [40, 45, 50] }

/-- C3: in every marine analysis the spill service is invoked exactly
once per distress status and for no other status (the invocation list
is the distress sublist, and since the detector always attaches the
vessel, its length is exactly the distress count), and every oil-spill
entry in the response is tagged with the imo of a distress status. -/
theorem C3_spill_once_per_distress :
    ∀ vessels : Option (List Vessel),
      (spillInvocations
          (detect_vessel_anomalies (marineForwardVessels vessels)).vessel_statuses
        = ((detect_vessel_anomalies (marineForwardVessels vessels)).vessel_statuses.filter
            (fun vs => decide (vs.status = VesselStatusKind.distress))).filterMap
              (fun vs => vs.vessel))
      ∧ ((spillInvocations
            (detect_vessel_anomalies (marineForwardVessels vessels)).vessel_statuses).length
          = ((detect_vessel_anomalies (marineForwardVessels vessels)).vessel_statuses.filter
              (fun vs => decide (vs.status = VesselStatusKind.distress))).length)
      ∧ ∀ e ∈ (marineAnalyzeRoute oil_spill_service vessels).oil_spills,
          ((detect_vessel_anomalies (marineForwardVessels vessels)).vessel_statuses.any
            (fun vs => decide (vs.status = VesselStatusKind.distress
              ∧ vs.imo = e.vessel_imo))) = true := by
  intro vessels
  refine ⟨spillInvocations_eq_filterMap _, ?_, ?_⟩
  · exact spillInvocations_of_carrying _
      (fun vs hvs => (detect_statuses_carry_vessel _ vs hvs).imp
        (fun v hv => hv.1))
  · intro e he
    simp only [marineAnalyzeRoute] at he
    obtain ⟨vs, hmem, hd, v, hv, hok, him⟩ :=
      marineSpillLoop_sound oil_spill_service _ e he
    rw [List.any_eq_true]
    exact ⟨vs, hmem, by simp [hd, him]⟩

/-- Witness for C3: on the single-vessel batch holding the concrete
distressed vessel, the unique oil-spill entry is tagged with its imo. -/
theorem C3_witness_distress_batch :
    ((detect_vessel_anomalies
        (marineForwardVessels (some [distressVessel]))).vessel_statuses.any
      (fun vs => decide (vs.status = VesselStatusKind.distress
        ∧ vs.imo = 9999999))) = true :=
  (C3_spill_once_per_distress (some [distressVessel])).2.2
    { estimate := estimate_oil_spill distressVessel, vessel_imo := 9999999 }
    (by decide)

/-- A spill transport that always fails, standing for an unreachable
spill endpoint. -/
def failing_spill_service : Vessel → Except String OilSpillEstimate :=
  fun _ => .error "oil spill service unavailable"

/-- C4 counterexample: with one distress vessel and a failing spill
call, the marine route returns the normal response shape with an empty
oil_spills list: the per-entity failure is not surfaced anywhere in the
structured result (no kind and message entry exists), the spill entry
is silently dropped and the partial data is returned. -/
theorem C4_counterexample_spill_failure_dropped :
    (detect_vessel_anomalies
        (marineForwardVessels (some [distressVessel]))).summary.distress = 1
    ∧ (marineAnalyzeRoute failing_spill_service (some [distressVessel])).oil_spills
        = []
    ∧ (marineAnalyzeRoute failing_spill_service
          (some [distressVessel])).vessel_statuses
        = (detect_vessel_anomalies (some [distressVessel])).vessel_statuses := by
  exact ⟨by decide, rfl, rfl⟩

/-- C4 as amended: when the oil-spill estimate for a distress vessel
fails, the gateway logs and drops exactly that entry; the response
still carries all vessel statuses, the unchanged summary and the spill
entries of the invocations that succeeded. -/
theorem C4_amended_failure_drops_only_that_entry :
    ∀ (spill : Vessel → Except String OilSpillEstimate)
      (vessels : Option (List Vessel)),
      (marineAnalyzeRoute spill vessels).vessel_statuses
          = (detect_vessel_anomalies (marineForwardVessels vessels)).vessel_statuses
      ∧ (marineAnalyzeRoute spill vessels).summary
          = (detect_vessel_anomalies (marineForwardVessels vessels)).summary
      ∧ (marineAnalyzeRoute spill vessels).oil_spills.length
          = ((spillInvocations
                (detect_vessel_anomalies
                  (marineForwardVessels vessels)).vessel_statuses).filter
              (fun v => exceptIsOk (spill v))).length := by
  intro spill vessels
  exact ⟨rfl, rfl, marineSpillLoop_length spill _⟩

/-- C9: when the vessels field is omitted the gateway forwards null,
the detector runs on the simulated fleet of 8 vessels re-derived from
the fixed seed, and the summary counts are the fixed, reproducible
values 8 total, 6 normal, 1 suspicious, 1 distress, with the counts
partitioning the total. -/
theorem C9_omitted_vessels_deterministic_fleet :
    marineForwardVessels none = none
    ∧ simulated_fleet = (List.range 8).map (genVessel fleet_seed)
    ∧ simulated_fleet.length = 8
    ∧ (detect_vessel_anomalies none).vessel_statuses
        = simulated_fleet.map evaluateVessel
    ∧ (detect_vessel_anomalies none).summary
        = { total := 8, normal := 6, suspicious := 1, distress := 1 }
    ∧ (detect_vessel_anomalies none).summary.normal
        + (detect_vessel_anomalies none).summary.suspicious
        + (detect_vessel_anomalies none).summary.distress
        = (detect_vessel_anomalies none).summary.total := by
  refine ⟨rfl, rfl, by decide, rfl, by decide, by decide⟩

/- ## AEGIS: urban water fragility scoring and dispatch routing -/

/-- The canonical six-field feature vector of a scenario.  Percent
fields are held as integers in 0..100 scale, indexes in 100 = 1.0
scale. -/
structure ScenarioProfile where
  rainfall : Int
  power_availability : Int
  tanker_count : Int
  groundwater : Int
  demand_surge : Int
  price_index : Int
  deriving Repr, DecidableEq

/-- Modelled from the spec: the Normal preset of the missing Python
aegis service. -/
def normal_profile : ScenarioProfile :=
  { rainfall := 20, power_availability := 95, tanker_count := 10
    groundwater := 60, demand_surge := 100, price_index := 100 }

/-- Modelled from the spec: the Flood Event preset. -/
def flood_profile : ScenarioProfile :=
  { rainfall := 160, power_availability := 70, tanker_count := 6
    groundwater := 85, demand_surge := 120, price_index := 130 }

/-- Modelled from the spec: the Power Failure preset. -/
def power_failure_profile : ScenarioProfile :=
  { rainfall := 10, power_availability := 20, tanker_count := 8
    groundwater := 55, demand_surge := 140, price_index := 120 }

/-- Modelled from the spec: the High Demand Crisis preset. -/
def high_demand_profile : ScenarioProfile :=
  { rainfall := 5, power_availability := 90, tanker_count := 7
    groundwater := 40, demand_surge := 180, price_index := 150 }

/-- Modelled from the spec: the named scenario presets; any other name
is invalid. -/
def scenarioPreset : String → Option ScenarioProfile
  | "Normal" => some normal_profile
  | "Flood Event" => some flood_profile
  | "Power Failure" => some power_failure_profile
  | "High Demand Crisis" => some high_demand_profile
  | _ => none

/-- A zone of the fixed registry: identity, name and a zone-specific
baseline offset. -/
structure ZoneInfo where
  id : Nat
  name : String
  baseline : Int
  deriving Repr, DecidableEq

/-- Modelled from the spec: the fixed, read-only zone registry of the
missing Python aegis service. -/
def zone_registry : List ZoneInfo :=
  [ { id := 0, name := "North Zone", baseline := 5 },
    { id := 1, name := "South Zone", baseline := 12 },
    { id := 2, name := "East Zone", baseline := 8 },
    { id := 3, name := "West Zone", baseline := 15 },
    { id := 4, name := "Central Zone", baseline := 10 } ]

/-- Zone status tiers. -/
inductive ZoneStatus where
  | normal
  | warning
  | critical
  deriving Repr, DecidableEq

/-- The fixed status thresholds: above 70 critical, 40 to 70 warning,
below 40 normal. -/
def status_of_score (s : Int) : ZoneStatus :=
  if 70 < s then .critical
  else if 40 ≤ s then .warning
  else .normal

/-- Length of the synthesized feature-history window. -/
def feature_window : Nat := 4

/-- Per-hour forecast drift of the horizon-shifted prediction. -/
def horizon_drift : Int := 2

/-- Modelled from the spec: the raw severity of one feature vector,
a calibrated formula over the six features (heavier rain, less power,
less groundwater, more demand, higher prices and fewer tankers all
increase severity). -/
def rawSeverity (p : ScenarioProfile) : Int :=
  p.rainfall / 4 + (100 - p.power_availability) / 2 + (100 - p.groundwater) / 5
    + (p.demand_surge - 100) / 4 + (p.price_index - 100) / 5 - p.tanker_count

/-- Modelled from the spec: the feature history window synthesized
from the scenario profile when no real history exists. -/
def synthHistory (p : ScenarioProfile) : List Int :=
  (List.range feature_window).map (fun k => rawSeverity p - (3 - (k : Int)))

/-- Clamp a raw score into the 0..100 band. -/
def clampScore (x : Int) : Int := max 0 (min 100 x)

/-- A scored zone. -/
structure ZoneResult where
  info : ZoneInfo
  score : Int
  status : ZoneStatus
  deriving Repr, DecidableEq

/-- Modelled from the spec: the sequence-model scoring of one zone; it
consumes the synthesized history window, adds the zone baseline offset
and the horizon shift, clamps into 0..100 and tiers by the fixed
thresholds. -/
def mkZoneResult (p : ScenarioProfile) (t : Int) (z : ZoneInfo) : ZoneResult :=
  let s := clampScore
    (z.baseline + (synthHistory p).sum / (feature_window : Int) + horizon_drift * t)
  { info := z, score := s, status := status_of_score s }

/-- Modelled from the spec: the static weighted zone-adjacency graph,
expanded to both directions. -/
def zone_edges : List (Nat × Nat × Int) :=
  let base : List (Nat × Nat × Int) :=
    [(0, 1, 4), (0, 2, 2), (1, 2, 1), (1, 3, 5), (2, 4, 3), (3, 4, 2)]
  base ++ base.map (fun e => (e.2.1, e.1, e.2.2))

/-- Number of zones in the registry. -/
def zone_count : Nat := 5

/-- Minimum of two optional costs, none meaning unreachable. -/
def optMin : Option Int → Option Int → Option Int
  | none, b => b
  | a, none => a
  | some x, some y => some (min x y)

/-- One relaxation pass over all edges. -/
def relaxOnce (d : List (Option Int)) : List (Option Int) :=
  (List.range zone_count).map (fun v =>
    zone_edges.foldl (fun acc e =>
      if e.2.1 = v then optMin acc ((d.getD e.1 none).map (fun w => w + e.2.2))
      else acc) (d.getD v none))

/-- Modelled from the spec: single-source shortest-path distances over
the zone graph (iterated relaxation on the small fixed graph). -/
def distsFrom (src : Nat) : List (Option Int) :=
  (List.range zone_count).foldl (fun d _ => relaxOnce d)
    ((List.range zone_count).map (fun v => if v = src then some 0 else none))

/-- Shortest-path cost between two zones, none when disconnected. -/
def pathCost (src dst : Nat) : Option Int := (distsFrom src).getD dst none

/-- The candidate origins for one critical zone: every scored zone
whose status is not critical and that reaches the destination, with
its path cost. -/
def originCandidates (scored : List ZoneResult) (c : ZoneResult) :
    List (ZoneResult × Int) :=
  scored.filterMap (fun o =>
    if o.status = ZoneStatus.critical then none
    else (pathCost o.info.id c.info.id).map (fun w => (o, w)))

/-- Candidate preference: lower cost, then lower fragility score, then
lower zone identifier. -/
def betterCandidate (a b : ZoneResult × Int) : Bool :=
  decide (a.2 < b.2) ||
    (decide (a.2 = b.2) &&
      (decide (a.1.score < b.1.score) ||
        (decide (a.1.score = b.1.score) && decide (a.1.info.id < b.1.info.id))))

/-- Pick the preferred candidate, none on an empty candidate list. -/
def pickBest : List (ZoneResult × Int) → Option (ZoneResult × Int)
  | [] => none
  | x :: rest =>
    some (rest.foldl (fun best y => if betterCandidate y best then y else best) x)

/-- One tanker dispatch route. -/
structure DispatchRoute where
  origin : ZoneResult
  destination : ZoneResult
  cost : Int
  deriving Repr, DecidableEq

/-- Modelled from the spec: the dispatch router, one route per critical
zone sourced from the preferred non-critical origin; a critical zone
with no reachable origin is flagged as dispatch unavailable instead of
being routed. -/
def dispatchPlan (scored : List ZoneResult) : List DispatchRoute :=
  (scored.filter (fun z => decide (z.status = ZoneStatus.critical))).filterMap
    (fun c => (pickBest (originCandidates scored c)).map
      (fun ow => { origin := ow.1, destination := c, cost := ow.2 }))

/-- The critical zones the router could not serve. -/
def dispatchUnavailable (scored : List ZoneResult) : List ZoneResult :=
  (scored.filter (fun z => decide (z.status = ZoneStatus.critical))).filter
    (fun c => decide (pickBest (originCandidates scored c) = none))

/-- Summary of one fragility analysis. -/
structure FragilitySummary where
  critical_count : Nat
  warning_count : Nat
  dispatch_required : Bool
  deriving Repr, DecidableEq

/-- Response of one fragility analysis. -/
structure FragilityResult where
  zones : List ZoneResult
  dispatch_plan : List DispatchRoute
  dispatch_unavailable : List ZoneResult
  summary : FragilitySummary
  deriving Repr, DecidableEq

/-- Modelled from the spec: analyze_fragility of the missing Python
aegis service.  Manual parameters override the preset; an invalid
scenario name with no manual parameters is a ValidationError, as is a
forecast horizon outside 0..24; all zones are scored independently with
the same profile, then the router runs over the scored zones. -/
def analyze_fragility (scenario : String) (manual : Option ScenarioProfile)
    (time_step : Int) : Except CoreError FragilityResult :=
  if time_step < 0 ∨ 24 < time_step then
    .error (.validation "time_step must be between 0 and 24")
  else
    match (match manual with
           | some p => some p
           | none => scenarioPreset scenario) with
    | none => .error (.validation "invalid scenario name")
    | some p =>
      .ok { zones := zone_registry.map (mkZoneResult p time_step)
            dispatch_plan := dispatchPlan (zone_registry.map (mkZoneResult p time_step))
            dispatch_unavailable :=
              dispatchUnavailable (zone_registry.map (mkZoneResult p time_step))
            summary :=
              { critical_count := (zone_registry.map (mkZoneResult p time_step)).countP
                  (fun z => decide (z.status = ZoneStatus.critical))
                warning_count := (zone_registry.map (mkZoneResult p time_step)).countP
                  (fun z => decide (z.status = ZoneStatus.warning))
                dispatch_required :=
                  !(dispatchPlan (zone_registry.map (mkZoneResult p time_step))).isEmpty } }

/-- Request body of POST /api/aegis/analyze as the gateway reads it. -/
structure AegisRequest where
  scenario : Option String
  time_step : Option Int
  manual_params : Option ScenarioProfile
  deriving Repr, DecidableEq

/-- The aegis gateway route (backend/routes/aegis.js): it forwards
scenario || Normal, time_step || 0 and manual_params || null to the
service. -/
def aegisAnalyzeRoute (r : AegisRequest) : Except CoreError FragilityResult :=
  analyze_fragility (jsOrStr r.scenario "Normal") r.manual_params
    (jsOrInt r.time_step 0)

/-- The preference fold stays inside the candidate list. -/
theorem foldl_better_mem (a : ZoneResult × Int) (l : List (ZoneResult × Int)) :
    l.foldl (fun best y => if betterCandidate y best then y else best) a ∈ a :: l := by
  induction l generalizing a with
  | nil => simp
  | cons y ys ih =>
    simp only [List.foldl_cons]
    rcases List.mem_cons.mp (ih (if betterCandidate y a then y else a)) with heq | hmem
    · rw [heq]
      by_cases hb : betterCandidate y a
      · simp [hb]
      · simp [hb]
    · exact List.mem_cons_of_mem _ (List.mem_cons_of_mem _ hmem)

/-- A picked candidate is a member of the candidate list. -/
theorem pickBest_mem (l : List (ZoneResult × Int)) (x : ZoneResult × Int)
    (h : pickBest l = some x) : x ∈ l := by
  cases l with
  | nil => cases h
  | cons a rest =>
    simp only [pickBest, Option.some.injEq] at h
    rw [← h]
    exact foldl_better_mem a rest

/-- Every candidate origin is a non-critical member of the scored
list. -/
theorem mem_originCandidates (scored : List ZoneResult) (c : ZoneResult)
    (o : ZoneResult) (w : Int) (h : (o, w) ∈ originCandidates scored c) :
    o ∈ scored ∧ o.status ≠ ZoneStatus.critical := by
  simp only [originCandidates, List.mem_filterMap] at h
  obtain ⟨a, ha, hf⟩ := h
  by_cases hc : a.status = ZoneStatus.critical
  · rw [if_pos hc] at hf; cases hf
  · rw [if_neg hc] at hf
    obtain ⟨w2, hw2, heq⟩ := Option.map_eq_some'.mp hf
    injection heq with h1 h2
    subst h1
    exact ⟨ha, hc⟩

/-- The clamped score is at least 0. -/
theorem clampScore_nonneg (x : Int) : 0 ≤ clampScore x := le_max_left 0 _

/-- The clamped score is at most 100. -/
theorem clampScore_le_100 (x : Int) : clampScore x ≤ 100 :=
  max_le (by norm_num) (min_le_left _ _)

/-- C5: every zone returned by analyze_fragility has its score in the
0..100 band and its status tier determined by the fixed thresholds:
above 70 critical, 40 to 70 warning, below 40 normal. -/
theorem C5_score_bounds_and_thresholds (scenario : String)
    (manual : Option ScenarioProfile) (t : Int) (res : FragilityResult)
    (h : analyze_fragility scenario manual t = .ok res) :
    ∀ z ∈ res.zones, (0 ≤ z.score ∧ z.score ≤ 100)
      ∧ z.status = (if 70 < z.score then ZoneStatus.critical
          else if 40 ≤ z.score then ZoneStatus.warning
          else ZoneStatus.normal) := by
  unfold analyze_fragility at h
  split at h
  · cases h
  · split at h
    · cases h
    · simp only [Except.ok.injEq] at h
      subst h
      intro z hz
      simp only [List.mem_map] at hz
      obtain ⟨zi, hzi, rfl⟩ := hz
      exact ⟨⟨clampScore_nonneg _, clampScore_le_100 _⟩, rfl⟩

/-- The empty fragility response, used only as a getD fallback. -/
def emptyFragilityResult : FragilityResult :=
  { zones := [], dispatch_plan := [], dispatch_unavailable := []
    summary := { critical_count := 0, warning_count := 0
                 dispatch_required := false } }

/-- The concrete Normal scenario run at horizon 0. -/
def normalRun : FragilityResult :=
  (analyze_fragility "Normal" none 0).toOption.getD emptyFragilityResult

/-- The concrete scored North Zone under the Normal profile. -/
def sampleZoneScored : ZoneResult :=
  mkZoneResult normal_profile 0 { id := 0, name := "North Zone", baseline := 5 }

/-- Witness for C5: the scored North Zone of the concrete Normal run
satisfies the bounds and the threshold tiering. -/
theorem C5_witness_normal_zone :
    (0 ≤ sampleZoneScored.score ∧ sampleZoneScored.score ≤ 100)
    ∧ sampleZoneScored.status = (if 70 < sampleZoneScored.score
        then ZoneStatus.critical
        else if 40 ≤ sampleZoneScored.score then ZoneStatus.warning
        else ZoneStatus.normal) :=
  C5_score_bounds_and_thresholds "Normal" none 0 normalRun rfl
    sampleZoneScored (by decide)

/-- C6: in every dispatch plan produced by analyze_fragility, every
route has a critical destination and a non-critical origin, and when no
zone is critical the plan is empty. -/
theorem C6_dispatch_plan_invariants (scenario : String)
    (manual : Option ScenarioProfile) (t : Int) (res : FragilityResult)
    (h : analyze_fragility scenario manual t = .ok res) :
    (∀ r ∈ res.dispatch_plan,
        r.destination.status = ZoneStatus.critical
          ∧ ¬ r.origin.status = ZoneStatus.critical)
    ∧ (res.zones.filter (fun z => decide (z.status = ZoneStatus.critical)) = [] →
        res.dispatch_plan = []) := by
  unfold analyze_fragility at h
  split at h
  · cases h
  · split at h
    · cases h
    · simp only [Except.ok.injEq] at h
      subst h
      constructor
      · intro r hr
        simp only [dispatchPlan, List.mem_filterMap] at hr
        obtain ⟨c, hc, hmap⟩ := hr
        obtain ⟨ow, how, rfl⟩ := Option.map_eq_some'.mp hmap
        refine ⟨?_, ?_⟩
        · have hcrit := (List.mem_filter.mp hc).2
          simpa using hcrit
        · exact (mem_originCandidates _ _ ow.1 ow.2 (pickBest_mem _ _ how)).2
      · intro hempty
        simp only [dispatchPlan]
        simp only [FragilityResult.zones] at hempty
        rw [hempty]
        rfl

/-- Witness for C6: the concrete Normal run has no critical zone and
an empty dispatch plan. -/
theorem C6_witness_normal_empty_plan : normalRun.dispatch_plan = [] :=
  (C6_dispatch_plan_invariants "Normal" none 0 normalRun rfl).2 (by decide)

/-- C8: the aegis analysis is a pure function of its request: two calls
with identical scenario, time_step and manual parameters return the
identical response, in particular identical zone scores and an
identical dispatch plan. -/
theorem C8_identical_inputs_identical_outputs (r1 r2 : AegisRequest)
    (h : r1 = r2) :
    aegisAnalyzeRoute r1 = aegisAnalyzeRoute r2
    ∧ (aegisAnalyzeRoute r1).map FragilityResult.zones
        = (aegisAnalyzeRoute r2).map FragilityResult.zones
    ∧ (aegisAnalyzeRoute r1).map FragilityResult.dispatch_plan
        = (aegisAnalyzeRoute r2).map FragilityResult.dispatch_plan := by
  subst h
  exact ⟨rfl, rfl, rfl⟩

/-- The concrete Flood Event request. -/
def reqFlood : AegisRequest :=
  { scenario := some "Flood Event", time_step := some 0, manual_params := none }

/-- Witness for C8: two identical Flood Event calls coincide. -/
theorem C8_witness_flood_twice :
    aegisAnalyzeRoute reqFlood = aegisAnalyzeRoute reqFlood
    ∧ (aegisAnalyzeRoute reqFlood).map FragilityResult.zones
        = (aegisAnalyzeRoute reqFlood).map FragilityResult.zones
    ∧ (aegisAnalyzeRoute reqFlood).map FragilityResult.dispatch_plan
        = (aegisAnalyzeRoute reqFlood).map FragilityResult.dispatch_plan :=
  C8_identical_inputs_identical_outputs reqFlood reqFlood rfl

/- ## User history (gateway in-memory fallback store) -/

/-- Request body of POST /api/user/history as the gateway reads it. -/
structure HistoryRequest where
  userId : Option String
  product : Option String
  analysisType : Option String
  summary : Option String
  data : Option String
  deriving Repr, DecidableEq

/-- One stored history entry; the timestamp is passed in to keep the
embedding pure. -/
structure HistoryEntry where
  userId : String
  product : String
  analysisType : String
  summary : String
  data : Option String
  timestamp : Nat
  deriving Repr, DecidableEq

/-- Outcome of the history POST handler. -/
inductive PostStatus where
  | ok
  | badRequest
  deriving Repr, DecidableEq

/-- Cap of the in-memory history store. -/
def history_cap : Nat := 500

/-- The entry the handler builds from a request (user/routes user.js):
analysisType defaults to general and summary to the empty string via
the JavaScript falsy defaults. -/
def mkHistoryEntry (r : HistoryRequest) (now : Nat) : HistoryEntry :=
  { userId := r.userId.getD ""
    product := r.product.getD ""
    analysisType := jsOrStr r.analysisType "general"
    summary := jsOrStr r.summary ""
    data := r.data
    timestamp := now }

/-- The POST /api/user/history handler on the in-memory fallback store:
a request with falsy userId or product is answered 400 and the store is
untouched; otherwise the entry is pushed and, when the store exceeds
500 entries, it is cut to its last 500 (slice of the final 500, oldest
dropped first). -/
def postHistory (state : List HistoryEntry) (r : HistoryRequest) (now : Nat) :
    PostStatus × List HistoryEntry :=
  if !(jsTruthyStr r.userId) || !(jsTruthyStr r.product) then
    (.badRequest, state)
  else
    (.ok,
      if history_cap < (state ++ [mkHistoryEntry r now]).length then
        (state ++ [mkHistoryEntry r now]).drop
          ((state ++ [mkHistoryEntry r now]).length - history_cap)
      else state ++ [mkHistoryEntry r now])

/-- C10: a POST missing userId or product is rejected with 400 and
leaves the history unchanged; every accepted POST leaves the in-memory
history at no more than 500 entries and its content a suffix of the old
history plus the new entry, so the oldest entries are dropped first. -/
theorem C10_history_cap_and_validation (state : List HistoryEntry)
    (r : HistoryRequest) (now : Nat) :
    ((jsTruthyStr r.userId = false ∨ jsTruthyStr r.product = false) →
        postHistory state r now = (.badRequest, state))
    ∧ (jsTruthyStr r.userId = true → jsTruthyStr r.product = true →
        (postHistory state r now).1 = .ok
        ∧ (postHistory state r now).2.length ≤ 500
        ∧ ∃ k, (postHistory state r now).2
            = (state ++ [mkHistoryEntry r now]).drop k) := by
  constructor
  · intro hbad
    unfold postHistory
    rcases hbad with hb | hb
    · rw [if_pos]
      simp [hb]
    · rw [if_pos]
      simp [hb]
  · intro hu hp
    unfold postHistory
    rw [if_neg (by simp [hu, hp])]
    by_cases hlen : history_cap < (state ++ [mkHistoryEntry r now]).length
    · rw [if_pos hlen]
      refine ⟨rfl, ?_,
        ⟨(state ++ [mkHistoryEntry r now]).length - history_cap, by simp⟩⟩
      rw [List.length_drop]
      simp only [history_cap] at hlen ⊢
      omega
    · rw [if_neg hlen]
      refine ⟨rfl, ?_, ⟨0, by rw [List.drop_zero]⟩⟩
      simp only [history_cap, not_lt] at hlen
      exact hlen

/-- A history request missing its userId. -/
def reqNoUser : HistoryRequest :=
  { userId := none, product := some "aegis", analysisType := none
    summary := none, data := none }

/-- A well-formed history request. -/
def reqValidHistory : HistoryRequest :=
  { userId := some "u1", product := some "aegis"
    analysisType := some "fragility", summary := some "run"
    data := some "payload" }

/-- Witness for C10: on the empty store, the userId-less request is
rejected unchanged and the valid request is stored within the cap. -/
theorem C10_witness_empty_store :
    postHistory [] reqNoUser 5 = (.badRequest, [])
    ∧ ((postHistory [] reqValidHistory 7).1 = .ok
        ∧ (postHistory [] reqValidHistory 7).2.length ≤ 500
        ∧ ∃ k, (postHistory [] reqValidHistory 7).2
            = ([] ++ [mkHistoryEntry reqValidHistory 7]).drop k) :=
  ⟨(C10_history_cap_and_validation [] reqNoUser 5).1 (Or.inl (by decide)),
   (C10_history_cap_and_validation [] reqValidHistory 7).2 (by decide) (by decide)⟩
